import Mathlib

/-!
Verification of the BiometricGaze session lifecycle and stress-classification
pipeline (src/app.py) against its natural-language specification.

Numbers flowing through the pipeline (heart rate, temperature, model
predictions, the averaged stress score) are modelled as exact rationals.
The external collaborators that live outside src/app.py — the pickled
classifier (`model.predict`), the MongoDB insert (`collection.insert_one`)
and the gaze adapter start hook (`start_logging` from the pupil-detector
module) — are modelled as parameters: a prediction function respecting the
documented row-per-sample contract, and boolean success flags for the two
fallible hooks. Python exceptions (pandas KeyError on a missing column,
dict KeyError, a raising insert, a raising gaze hook) are modelled with
`Except Fault`.
-/

namespace BiometricGaze

/-- One buffered biometric sample: the dict `{"HR": bpm, "TEMP": temp,
"datetime": now}` built by `receive_data` in src/app.py. -/
structure Sample where
  hr : ℚ
  temp : ℚ
  dt : String
deriving DecidableEq

/-- Python exceptions that can escape the modelled handlers. -/
inductive Fault where
  | keyError (key : String)
  | persistFault
  | gazeStartFault
deriving DecidableEq

/-- The dict returned by `predict_stress_from_data`: either the failure dict
`{"status": "failure", "message": ...}` (no `stress` / `average_stress`
keys) or the success dict with the label and the formatted percent. -/
inductive PredictResult where
  | failure (message : String)
  | success (stress : String) (average_stress : String)
deriving DecidableEq

/-- The pickled classifier, abstracted to its documented contract: `predict`
maps a feature matrix (one `(HR, TEMP)` row per sample) to a per-sample
prediction vector of the same length. -/
structure Model where
  predict : List (ℚ × ℚ) → List ℚ
  predict_length : ∀ X, (predict X).length = X.length

/-- A model predicting the same value for every row, used as a concrete
instantiation in the closed evaluation theorems. -/
def constModel (c : ℚ) : Model where
  predict X := X.map fun _ => c
  predict_length X := by simp

/-- `df.drop(columns=["datetime"]).values`: one `(HR, TEMP)` row per
sample, in buffer order. -/
def features (data : List Sample) : List (ℚ × ℚ) :=
  data.map fun s => (s.hr, s.temp)

/-- `P = model.predict(X)` in `predict_stress_from_data`. -/
def predictions (model : Model) (data : List Sample) : List ℚ :=
  model.predict (features data)

/-- `avg_stress = np.sum(P) / (len(P) * 2)` in `predict_stress_from_data`. -/
def avgStress (model : Model) (data : List Sample) : ℚ :=
  (predictions model data).sum / (((predictions model data).length : ℚ) * 2)

/-- Round a rational to the nearest integer, ties to even (the rounding used
when Python formats a value with `.2f`). -/
def roundHalfEven (q : ℚ) : ℤ :=
  if q - ⌊q⌋ < 1/2 then ⌊q⌋
  else if q - ⌊q⌋ > 1/2 then ⌊q⌋ + 1
  else if ⌊q⌋ % 2 = 0 then ⌊q⌋ else ⌊q⌋ + 1

/-- The decimal digit character for `n % 10`. -/
def digitChar (n : ℕ) : Char := Char.ofNat (48 + n % 10)

/-- Python's `f"{q:.2f}"`: the value rounded to two decimal places, with
exactly two digits after the decimal point. -/
def format2f (q : ℚ) : String :=
  let c : ℤ := roundHalfEven (q * 100)
  let a : ℕ := c.natAbs
  let sign : String := if q < 0 then "-" else ""
  sign ++ toString (a / 100) ++ "." ++ String.mk [digitChar (a / 10), digitChar a]

/-- `f"{avg_stress:.2f}%"` in `predict_stress_from_data`. -/
def formatPercent (q : ℚ) : String := format2f q ++ "%"

/-- `predict_stress_from_data(data)` from src/app.py.  An empty `data` makes
`pd.DataFrame(data)` an empty frame with no columns, so `df["TEMP"]` raises
`KeyError: 'TEMP'`.  Otherwise the temperatures are range-checked (the
failure dict is returned if any lies outside `[26, 38]`), the model is run
on the `(HR, TEMP)` rows, and the halved mean of the predictions is
thresholded into a label and formatted. -/
def predict_stress_from_data (model : Model) (data : List Sample) :
    Except Fault PredictResult :=
  if data.isEmpty then .error (.keyError "TEMP")
  else if data.any (fun s => s.temp < 26 || s.temp > 38) then
    .ok (.failure "The temperature should be between 26 and 38")
  else
    let avg := avgStress model data
    let status :=
      if avg < 1/4 then "Resilient"
      else if avg < 3/4 then "Adaptive"
      else "Overwhelmed"
    .ok (.success status (formatPercent (avg * 100)))

/-- The spec's threshold table, stated in the spec's own words for
comparison with the code: `avgStress < 0.25 → Resilient`;
`0.25 ≤ avgStress < 0.75 → Adaptive`; `avgStress ≥ 0.75 → Overwhelmed`. -/
def specLabel (q : ℚ) : String :=
  if q < 1/4 then "Resilient"
  else if 1/4 ≤ q ∧ q < 3/4 then "Adaptive"
  else "Overwhelmed"

/-- The module-level shared variables of src/app.py:
`buffered_data`, `is_logging`, `current_id`. -/
structure ServerState where
  buffered_data : List Sample
  is_logging : Bool
  current_id : Option String
deriving DecidableEq

/-- The state at process start: empty buffer, not logging, no id. -/
def initialState : ServerState := ⟨[], false, none⟩

/-- Python truthiness of the `id` value pulled from the request body
(`body.get('id')`): `None` and the empty string are falsy. -/
def isTruthy : Option String → Bool
  | none => false
  | some s => !s.isEmpty

/-- Responses of the `/startLogging` and `/startAll` handlers:
200 success, or 400 `{"status": "failure", "message": "ID is required"}`. -/
inductive StartResponse where
  | started
  | idRequired
deriving DecidableEq

/-- `start_logging_stress` (`POST /startLogging`) from src/app.py, given the
`id` field of the request body.  Note the source assigns
`current_id = body.get('id')` before validating it, so the 400 path still
overwrites the global `current_id`. -/
def start_logging_stress (body_id : Option String) (s : ServerState) :
    StartResponse × ServerState :=
  if !isTruthy body_id then
    (.idRequired, ⟨s.buffered_data, s.is_logging, body_id⟩)
  else
    (.started, ⟨[], true, body_id⟩)

/-- `start_all_logging` (`POST /startAll`) from src/app.py: the stress-side
start (identical to `start_logging_stress`) runs first, then the gaze
adapter's `start_logging()` hook is invoked; `gazeOk` says whether that
external hook succeeds or raises. -/
def start_all_logging (body_id : Option String) (gazeOk : Bool)
    (s : ServerState) : Except Fault StartResponse × ServerState :=
  if !isTruthy body_id then
    (.ok .idRequired, ⟨s.buffered_data, s.is_logging, body_id⟩)
  else
    if gazeOk then (.ok .started, ⟨[], true, body_id⟩)
    else (.error .gazeStartFault, ⟨[], true, body_id⟩)

/-- The document handed to `collection.insert_one` by `stop_logging_stress`. -/
structure CandidateRecord where
  candidateId : Option String
  averageStress : String
  stressStatus : String
  biometrics : List Sample
deriving DecidableEq

/-- Responses of the `/stopLogging` handler: 200 success carrying the
stress result, or 400 `"Logging is not currently active"`. -/
inductive StopResponse where
  | stopped (stress : String) (average_stress : String)
  | notActive
deriving DecidableEq

/-- Result of one `stop_logging_stress` call: the HTTP-level outcome (or the
escaping Python exception), the shared state afterwards, and the records
handed to `collection.insert_one` during the call. -/
structure StopOutcome where
  result : Except Fault StopResponse
  state : ServerState
  handed : List CandidateRecord

/-- `stop_logging_stress` (`POST /stopLogging`) from src/app.py.  While
logging, it classifies the buffer, builds `candidate_record` — reading
`stress_result["average_stress"]`, which raises `KeyError` when the
classifier returned its failure dict — inserts the record, and only then
resets the three globals; `persistOk` says whether the external
`insert_one` succeeds or raises.  An exception at any point skips every
later line, leaving the globals as they were. -/
def stop_logging_stress (model : Model) (persistOk : Bool)
    (s : ServerState) : StopOutcome :=
  if s.is_logging then
    match predict_stress_from_data model s.buffered_data with
    | .error f => ⟨.error f, s, []⟩
    | .ok (.failure _) => ⟨.error (.keyError "average_stress"), s, []⟩
    | .ok (.success stress avg) =>
        let record : CandidateRecord :=
          ⟨s.current_id, avg, stress, s.buffered_data⟩
        if persistOk then
          ⟨.ok (.stopped stress avg), ⟨[], false, none⟩, [record]⟩
        else
          ⟨.error .persistFault, s, [record]⟩
  else ⟨.ok .notActive, s, []⟩

/-- Responses of the `POST /data` handler: 200 `{"status": "success"}` or
400 `"Missing bpm or temperature"`. -/
inductive DataResponse where
  | success
  | missingField
deriving DecidableEq

/-- The `POST` branch of `receive_data` (`/data`) from src/app.py, given the
`bpm` and `temperature` fields of the body and the formatted current time.
A sample is appended unconditionally — the active implementation does not
consult `is_logging`. -/
def receive_data_post (bpm temp : Option ℚ) (now : String)
    (s : ServerState) : (DataResponse × ℕ) × ServerState :=
  if bpm = none ∨ temp = none then
    ((.missingField, 400), s)
  else
    ((.success, 200),
      ⟨s.buffered_data ++ [⟨bpm.getD 0, temp.getD 0, now⟩],
        s.is_logging, s.current_id⟩)

/-- The spec's data-model invariant, stated in the spec's own words for
comparison with the code: `candidateId` is set iff `state = Active`. -/
def idInvariant (s : ServerState) : Bool :=
  isTruthy s.current_id == s.is_logging

/-- A string has the shape of a number formatted to exactly two decimal
places followed by a percent sign: some prefix, a decimal point, exactly
two digit characters, and a trailing percent sign. -/
def twoDecimalPercent (s : String) : Prop :=
  ∃ (pre : String) (a b : Char),
    a.isDigit = true ∧ b.isDigit = true ∧
    s = pre ++ "." ++ String.mk [a, b] ++ "%"

/-! ## Supporting lemmas -/

theorem digitChar_isDigit (n : ℕ) : (digitChar n).isDigit = true := by
  have h : n % 10 < 10 := Nat.mod_lt _ (by norm_num)
  have hall : ∀ m, m < 10 → (Char.ofNat (48 + m)).isDigit = true := by decide
  exact hall _ h

theorem formatPercent_twoDecimalPercent (q : ℚ) :
    twoDecimalPercent (formatPercent q) :=
  ⟨(if q < 0 then "-" else "") ++
      toString ((roundHalfEven (q * 100)).natAbs / 100),
    digitChar ((roundHalfEven (q * 100)).natAbs / 10),
    digitChar (roundHalfEven (q * 100)).natAbs,
    digitChar_isDigit _, digitChar_isDigit _, rfl⟩

theorem predictions_length (model : Model) (data : List Sample) :
    (predictions model data).length = data.length := by
  simp [predictions, features, model.predict_length]

/-- On a non-empty buffer whose temperatures all pass the range check,
`predict_stress_from_data` returns the success dict whose label is the
spec's threshold bucket for the computed average and whose score string is
the formatted percentage. -/
theorem predict_valid (model : Model) (data : List Sample) (hn : data ≠ [])
    (ht : ∀ s ∈ data, 26 ≤ s.temp ∧ s.temp ≤ 38) :
    predict_stress_from_data model data =
      .ok (.success (specLabel (avgStress model data))
        (formatPercent (avgStress model data * 100))) := by
  obtain ⟨x, xs, rfl⟩ := List.exists_cons_of_ne_nil hn
  have hany : (x :: xs).any (fun s => s.temp < 26 || s.temp > 38) = false := by
    rw [List.any_eq_false]
    intro s hs
    obtain ⟨h26, h38⟩ := ht s hs
    simp only [Bool.or_eq_true, decide_eq_true_eq, not_or]
    exact ⟨not_lt.mpr h26, not_lt.mpr h38⟩
  unfold predict_stress_from_data
  rw [if_neg (by simp), if_neg (by simp [hany])]
  show Except.ok (PredictResult.success
      (if avgStress model (x :: xs) < 1/4 then "Resilient"
        else if avgStress model (x :: xs) < 3/4 then "Adaptive"
        else "Overwhelmed")
      (formatPercent (avgStress model (x :: xs) * 100))) = _
  have hlab : (if avgStress model (x :: xs) < 1/4 then "Resilient"
      else if avgStress model (x :: xs) < 3/4 then "Adaptive"
      else "Overwhelmed") = specLabel (avgStress model (x :: xs)) := by
    unfold specLabel
    rcases lt_or_le (avgStress model (x :: xs)) (1/4) with h1 | h1
    · rw [if_pos h1, if_pos h1]
    · rw [if_neg (not_lt.mpr h1), if_neg (not_lt.mpr h1)]
      rcases lt_or_le (avgStress model (x :: xs)) (3/4) with h2 | h2
      · rw [if_pos h2, if_pos ⟨h1, h2⟩]
      · rw [if_neg (not_lt.mpr h2), if_neg]
        intro hc
        exact absurd hc.2 (not_lt.mpr h2)
  rw [hlab]

/-! ## Claims -/

/-- C1: on any non-empty sample list whose temperatures all lie in
`[26, 38]`, the classifier assigns exactly the spec's threshold-table label
for the computed average stress, and the boundary averages `0.25` and
`0.75` fall into the higher buckets `Adaptive` and `Overwhelmed`. -/
theorem classify_threshold_table (model : Model) (data : List Sample)
    (hn : data ≠ []) (ht : ∀ s ∈ data, 26 ≤ s.temp ∧ s.temp ≤ 38) :
    (∃ pct, predict_stress_from_data model data =
        .ok (.success (specLabel (avgStress model data)) pct))
    ∧ (avgStress model data = 1/4 →
        ∃ pct, predict_stress_from_data model data =
          .ok (.success "Adaptive" pct))
    ∧ (avgStress model data = 3/4 →
        ∃ pct, predict_stress_from_data model data =
          .ok (.success "Overwhelmed" pct)) := by
  have h := predict_valid model data hn ht
  refine ⟨⟨_, h⟩, fun hq => ?_, fun hq => ?_⟩
  · have hlab : specLabel (avgStress model data) = "Adaptive" := by
      rw [hq]
      norm_num [specLabel]
    rw [hlab] at h
    exact ⟨_, h⟩
  · have hlab : specLabel (avgStress model data) = "Overwhelmed" := by
      rw [hq]
      norm_num [specLabel]
    rw [hlab] at h
    exact ⟨_, h⟩

/-- C1 witness: a sample list with one in-range sample and a model
predicting `1/2` everywhere satisfies the hypotheses; the theorem applies. -/
theorem classify_threshold_table_witness :
    (([⟨80, 30, "t0"⟩] : List Sample) ≠ []
      ∧ ∀ s ∈ ([⟨80, 30, "t0"⟩] : List Sample), 26 ≤ s.temp ∧ s.temp ≤ 38)
    ∧ ((∃ pct, predict_stress_from_data (constModel (1/2)) [⟨80, 30, "t0"⟩] =
          .ok (.success
            (specLabel (avgStress (constModel (1/2)) [⟨80, 30, "t0"⟩])) pct))
      ∧ (avgStress (constModel (1/2)) [⟨80, 30, "t0"⟩] = 1/4 →
          ∃ pct, predict_stress_from_data (constModel (1/2)) [⟨80, 30, "t0"⟩] =
            .ok (.success "Adaptive" pct))
      ∧ (avgStress (constModel (1/2)) [⟨80, 30, "t0"⟩] = 3/4 →
          ∃ pct, predict_stress_from_data (constModel (1/2)) [⟨80, 30, "t0"⟩] =
            .ok (.success "Overwhelmed" pct))) :=
  ⟨⟨by decide, by decide⟩,
    classify_threshold_table (constModel (1/2)) [⟨80, 30, "t0"⟩]
      (by decide) (by decide)⟩

/-- C2: on any non-empty sample list passing temperature validation, the
average stress is `sum(P) / (2n)` with `n` the number of samples (and `P`
of length `n`), and the reported score string is the average times 100
formatted to two decimal places with a trailing percent sign. -/
theorem classify_score_and_format (model : Model) (data : List Sample)
    (hn : data ≠ []) (ht : ∀ s ∈ data, 26 ≤ s.temp ∧ s.temp ≤ 38) :
    avgStress model data =
      (predictions model data).sum / (2 * (data.length : ℚ))
    ∧ (predictions model data).length = data.length
    ∧ (∃ lab, predict_stress_from_data model data =
        .ok (.success lab (formatPercent (avgStress model data * 100))))
    ∧ twoDecimalPercent (formatPercent (avgStress model data * 100)) := by
  refine ⟨?_, predictions_length model data, ⟨_, predict_valid model data hn ht⟩,
    formatPercent_twoDecimalPercent _⟩
  unfold avgStress
  rw [predictions_length model data, mul_comm]

/-- C2 witness: two in-range samples under a model predicting `1/2`
everywhere satisfy the hypotheses; the theorem applies. -/
theorem classify_score_and_format_witness :
    (([⟨80, 30, "t0"⟩, ⟨82, 31, "t1"⟩] : List Sample) ≠ []
      ∧ ∀ s ∈ ([⟨80, 30, "t0"⟩, ⟨82, 31, "t1"⟩] : List Sample),
          26 ≤ s.temp ∧ s.temp ≤ 38)
    ∧ (avgStress (constModel (1/2)) [⟨80, 30, "t0"⟩, ⟨82, 31, "t1"⟩] =
        (predictions (constModel (1/2)) [⟨80, 30, "t0"⟩, ⟨82, 31, "t1"⟩]).sum
          / (2 * (([⟨80, 30, "t0"⟩, ⟨82, 31, "t1"⟩] : List Sample).length : ℚ))
      ∧ (predictions (constModel (1/2))
          [⟨80, 30, "t0"⟩, ⟨82, 31, "t1"⟩]).length =
          ([⟨80, 30, "t0"⟩, ⟨82, 31, "t1"⟩] : List Sample).length
      ∧ (∃ lab, predict_stress_from_data (constModel (1/2))
            [⟨80, 30, "t0"⟩, ⟨82, 31, "t1"⟩] =
          .ok (.success lab (formatPercent
            (avgStress (constModel (1/2)) [⟨80, 30, "t0"⟩, ⟨82, 31, "t1"⟩]
              * 100))))
      ∧ twoDecimalPercent (formatPercent
          (avgStress (constModel (1/2)) [⟨80, 30, "t0"⟩, ⟨82, 31, "t1"⟩]
            * 100))) :=
  ⟨⟨by decide, by decide⟩,
    classify_score_and_format (constModel (1/2))
      [⟨80, 30, "t0"⟩, ⟨82, 31, "t1"⟩] (by decide) (by decide)⟩

/-- C3: on a buffered sample with temperature 40 (outside `[26, 38]`), the
classifier itself returns the failure dict and no classification result,
but `stop_logging_stress` then reads the absent `average_stress` key of
that dict, so the call escapes with `KeyError` — an unhandled fault, not a
`failure` status in the response body. -/
theorem stop_out_of_range_keyerror :
    predict_stress_from_data (constModel 0) [⟨80, 40, "t0"⟩] =
      .ok (.failure "The temperature should be between 26 and 38")
    ∧ (stop_logging_stress (constModel 0) true
        ⟨[⟨80, 40, "t0"⟩], true, some "c1"⟩).result =
      .error (.keyError "average_stress") :=
  ⟨rfl, rfl⟩

/-- C4 counterexample: stopping an active session over one in-range sample
with a faulting persistence collaborator leaves the buffer non-empty, the
state Active and the candidate id set — the in-memory reset does not
happen when the persist call faults. -/
theorem stop_persist_fault_skips_reset :
    (stop_logging_stress (constModel 0) false
        ⟨[⟨80, 30, "t0"⟩], true, some "c1"⟩).result = .error .persistFault
    ∧ (stop_logging_stress (constModel 0) false
        ⟨[⟨80, 30, "t0"⟩], true, some "c1"⟩).state =
      ⟨[⟨80, 30, "t0"⟩], true, some "c1"⟩ :=
  ⟨rfl, rfl⟩

/-- C4 amended: for a stop call made while Active over a non-empty
validated buffer, the in-memory reset (buffer cleared, state Idle, id
cleared) happens exactly when the persist call succeeds; when it faults,
the fault is surfaced and the buffer, state and id are left unchanged. -/
theorem stop_reset_only_on_persist_success (model : Model) (persistOk : Bool)
    (s : ServerState) (hA : s.is_logging = true) (hn : s.buffered_data ≠ [])
    (ht : ∀ x ∈ s.buffered_data, 26 ≤ x.temp ∧ x.temp ≤ 38) :
    (persistOk = true →
      (stop_logging_stress model persistOk s).state = initialState
      ∧ ∃ lab pct, (stop_logging_stress model persistOk s).result =
          .ok (.stopped lab pct))
    ∧ (persistOk = false →
      (stop_logging_stress model persistOk s).result = .error .persistFault
      ∧ (stop_logging_stress model persistOk s).state = s) := by
  have h := predict_valid model s.buffered_data hn ht
  constructor
  · intro hp
    subst hp
    simp only [stop_logging_stress, hA, if_true, h]
    exact ⟨rfl, _, _, rfl⟩
  · intro hp
    subst hp
    simp only [stop_logging_stress, hA, if_true, h]
    exact ⟨rfl, rfl⟩

/-- C4 witness: an active session over one in-range sample with a
faulting persistence collaborator satisfies the hypotheses; the theorem
applies. -/
theorem stop_reset_only_on_persist_success_witness :
    ((⟨[⟨80, 30, "t0"⟩], true, some "c1"⟩ : ServerState).is_logging = true
      ∧ (⟨[⟨80, 30, "t0"⟩], true, some "c1"⟩ : ServerState).buffered_data ≠ []
      ∧ ∀ x ∈ (⟨[⟨80, 30, "t0"⟩], true, some "c1"⟩ :
          ServerState).buffered_data, 26 ≤ x.temp ∧ x.temp ≤ 38)
    ∧ ((false = true →
        (stop_logging_stress (constModel 0) false
          ⟨[⟨80, 30, "t0"⟩], true, some "c1"⟩).state = initialState
        ∧ ∃ lab pct, (stop_logging_stress (constModel 0) false
            ⟨[⟨80, 30, "t0"⟩], true, some "c1"⟩).result =
          .ok (.stopped lab pct))
      ∧ (false = false →
        (stop_logging_stress (constModel 0) false
          ⟨[⟨80, 30, "t0"⟩], true, some "c1"⟩).result = .error .persistFault
        ∧ (stop_logging_stress (constModel 0) false
            ⟨[⟨80, 30, "t0"⟩], true, some "c1"⟩).state =
          ⟨[⟨80, 30, "t0"⟩], true, some "c1"⟩)) :=
  ⟨⟨by decide, by decide, by decide⟩,
    stop_reset_only_on_persist_success (constModel 0) false
      ⟨[⟨80, 30, "t0"⟩], true, some "c1"⟩ (by decide) (by decide) (by decide)⟩

/-- C5: stopping an active session with an empty buffer does not fail with
an `InsufficientData`-style failure dict: the empty DataFrame has no
`TEMP` column, so the classifier raises `KeyError: 'TEMP'` and the fault
propagates out of the stop handler with the state untouched. -/
theorem stop_empty_buffer_keyerror :
    predict_stress_from_data (constModel 0) [] = .error (.keyError "TEMP")
    ∧ (stop_logging_stress (constModel 0) true
        ⟨[], true, some "c1"⟩).result = .error (.keyError "TEMP")
    ∧ (stop_logging_stress (constModel 0) true
        ⟨[], true, some "c1"⟩).state = ⟨[], true, some "c1"⟩ :=
  ⟨rfl, rfl, rfl⟩

/-- C6 counterexample: calling `/startAll` from Idle with a valid id and a
faulting gaze start hook propagates the fault, yet the session has already
transitioned to Active with the new id — not the untouched Idle state the
claim requires. -/
theorem start_all_gaze_fault_goes_active :
    (start_all_logging (some "c1") false initialState).1 =
      .error .gazeStartFault
    ∧ (start_all_logging (some "c1") false initialState).2 =
      ⟨[], true, some "c1"⟩
    ∧ (start_all_logging (some "c1") false initialState).2 ≠ initialState :=
  ⟨rfl, rfl, by decide⟩

/-- C6 amended: when `/startAll` is called with a valid (non-empty)
candidate id and the gaze adapter's start hook fails, the fault is
propagated, but the session has already transitioned to Active: the buffer
is cleared and the new candidate id is installed before the hook runs. -/
theorem start_all_not_atomic (id : String) (hid : id ≠ "")
    (s : ServerState) :
    (start_all_logging (some id) false s).1 = .error .gazeStartFault
    ∧ (start_all_logging (some id) false s).2 = ⟨[], true, some id⟩ := by
  have hie : id.isEmpty = false := by
    rw [Bool.eq_false_iff]
    intro hc
    exact hid ((String.isEmpty_iff id).mp hc)
  have hi : isTruthy (some id) = true := by simp [isTruthy, hie]
  constructor <;> simp [start_all_logging, hi]

/-- C6 witness: the id "c1" is non-empty; the theorem applies at the Idle
initial state. -/
theorem start_all_not_atomic_witness :
    ("c1" ≠ "")
    ∧ ((start_all_logging (some "c1") false initialState).1 =
        .error .gazeStartFault
      ∧ (start_all_logging (some "c1") false initialState).2 =
        ⟨[], true, some "c1"⟩) :=
  ⟨by decide, start_all_not_atomic "c1" (by decide) initialState⟩

/-- C7: the iff-invariant between a set candidate id and an Active state
holds before, but not after, a `/startLogging` request whose body lacks
the id while a session is Active: the handler overwrites the global id
before validating it, so the 400 path leaves the state Active with the id
cleared. -/
theorem start_missing_id_breaks_invariant :
    idInvariant ⟨[], true, some "A"⟩ = true
    ∧ (start_logging_stress none ⟨[], true, some "A"⟩).1 = .idRequired
    ∧ (start_logging_stress none ⟨[], true, some "A"⟩).2 = ⟨[], true, none⟩
    ∧ idInvariant (start_logging_stress none ⟨[], true, some "A"⟩).2 =
        false := by
  decide

/-- C8: a `POST /data` body carrying both fields appends the sample to the
buffer — whatever the logging state, Idle included — and yields the 200
success response; a body missing either field yields the 400 response. -/
theorem receive_data_always_buffers (bpm temp : Option ℚ) (now : String)
    (s : ServerState) :
    (∀ b t, bpm = some b → temp = some t →
      receive_data_post bpm temp now s =
        ((.success, 200),
          ⟨s.buffered_data ++ [⟨b, t, now⟩], s.is_logging, s.current_id⟩))
    ∧ ((bpm = none ∨ temp = none) →
      (receive_data_post bpm temp now s).1 = (.missingField, 400)) := by
  constructor
  · rintro b t rfl rfl
    unfold receive_data_post
    rw [if_neg (by simp)]
    rfl
  · intro h
    unfold receive_data_post
    rw [if_pos h]

/-- C8 witness: with both fields present the sample is appended even while
Idle, and with `bpm` missing the 400 response is produced; both parts come
from the theorem applied at concrete inputs. -/
theorem receive_data_always_buffers_witness :
    receive_data_post (some 80) (some 36) "n0" initialState =
      ((.success, 200),
        ⟨initialState.buffered_data ++ [⟨80, 36, "n0"⟩],
          initialState.is_logging, initialState.current_id⟩)
    ∧ (receive_data_post none (some 36) "n0" initialState).1 =
      (.missingField, 400) :=
  ⟨(receive_data_always_buffers (some 80) (some 36) "n0" initialState).1
      80 36 rfl rfl,
    (receive_data_always_buffers none (some 36) "n0" initialState).2
      (Or.inl rfl)⟩

/-- C9: when classification fails at stop time because a buffered
temperature is out of range, the call escapes before `insert_one`: no
record is handed to the persistence collaborator and the buffer, the
Active state and the candidate id are all left exactly as they were. -/
theorem stop_classification_failure_preserves_state (model : Model)
    (persistOk : Bool) (s : ServerState) (hA : s.is_logging = true)
    (hbad : ∃ x ∈ s.buffered_data, x.temp < 26 ∨ x.temp > 38) :
    (stop_logging_stress model persistOk s).result =
      .error (.keyError "average_stress")
    ∧ (stop_logging_stress model persistOk s).handed = []
    ∧ (stop_logging_stress model persistOk s).state = s := by
  obtain ⟨x, hx, hxr⟩ := hbad
  have hne : s.buffered_data ≠ [] := by
    intro h
    rw [h] at hx
    exact absurd hx (List.not_mem_nil x)
  have hany : s.buffered_data.any
      (fun t => t.temp < 26 || t.temp > 38) = true :=
    List.any_eq_true.mpr ⟨x, hx, by rcases hxr with h | h <;> simp [h]⟩
  obtain ⟨y, ys, hys⟩ := List.exists_cons_of_ne_nil hne
  have hpred : predict_stress_from_data model s.buffered_data =
      .ok (.failure "The temperature should be between 26 and 38") := by
    rw [hys] at hany
    rw [hys]
    unfold predict_stress_from_data
    rw [if_neg (by simp), if_pos hany]
  simp [stop_logging_stress, hA, hpred]

/-- C9 witness: an active session whose single buffered sample has
temperature 40 satisfies the hypotheses; the theorem applies. -/
theorem stop_classification_failure_preserves_state_witness :
    ((⟨[⟨80, 40, "t0"⟩], true, some "c1"⟩ : ServerState).is_logging = true
      ∧ ∃ x ∈ (⟨[⟨80, 40, "t0"⟩], true, some "c1"⟩ :
          ServerState).buffered_data, x.temp < 26 ∨ x.temp > 38)
    ∧ ((stop_logging_stress (constModel 0) true
          ⟨[⟨80, 40, "t0"⟩], true, some "c1"⟩).result =
        .error (.keyError "average_stress")
      ∧ (stop_logging_stress (constModel 0) true
          ⟨[⟨80, 40, "t0"⟩], true, some "c1"⟩).handed = []
      ∧ (stop_logging_stress (constModel 0) true
          ⟨[⟨80, 40, "t0"⟩], true, some "c1"⟩).state =
        ⟨[⟨80, 40, "t0"⟩], true, some "c1"⟩) :=
  ⟨⟨by decide, by decide⟩,
    stop_classification_failure_preserves_state (constModel 0) true
      ⟨[⟨80, 40, "t0"⟩], true, some "c1"⟩ (by decide) (by decide)⟩

/-- C10: a `POST /data` body missing either field yields the 400 response
and leaves the whole server state — the buffer in particular —
unchanged. -/
theorem receive_data_missing_field_no_append (bpm temp : Option ℚ)
    (now : String) (s : ServerState) (h : bpm = none ∨ temp = none) :
    receive_data_post bpm temp now s = ((.missingField, 400), s) := by
  unfold receive_data_post
  rw [if_pos h]

/-- C10 witness: a body with `bpm` missing satisfies the hypothesis; the
theorem applies at a state with one buffered sample, which stays as is. -/
theorem receive_data_missing_field_no_append_witness :
    ((none : Option ℚ) = none ∨ (some (36:ℚ)) = none)
    ∧ receive_data_post none (some 36) "n0"
        ⟨[⟨80, 30, "t0"⟩], true, some "c1"⟩ =
      ((.missingField, 400), ⟨[⟨80, 30, "t0"⟩], true, some "c1"⟩) :=
  ⟨Or.inl rfl,
    receive_data_missing_field_no_append none (some 36) "n0"
      ⟨[⟨80, 30, "t0"⟩], true, some "c1"⟩ (Or.inl rfl)⟩

end BiometricGaze
